import Mathlib

/-!
Verification of the Business-Plan-Creator repository core.

Part I embeds the resilient search tool `internet_search` of `script.py`:
a retry loop around a web-search provider with exponential backoff
(start 1.0, doubling, wait clamped at 60.0, 5 attempts total), result
normalization (field-alias extraction, title/link filter) and formatting.
The provider is modelled as an oracle giving, for each attempt index,
either a raw result list (the `list(ddgs.text(...))` value) or a failure
(any raised exception, all caught uniformly by the `except` clause).
Sleeping is modelled by recording each applied wait in a trace.

Part II embeds the declarative agent loader (`load_agent_specs`,
`parse_agent_spec`) and the chat endpoint's lookup of `api_server.py`.
-/

/-- Raw provider record: a dictionary from which the code reads the keys
`title`, `href`, `url`, `body`, `description` via `dict.get`.  A field is
`none` when the key is absent. -/
structure RawRecord where
  title : Option String
  href : Option String
  url : Option String
  body : Option String
  description : Option String
  deriving Repr, DecidableEq

/-- Outcome of one provider call: a raw result list, or a raised error
(caught by the `except Exception` clause). -/
inductive ProviderResult where
  | failure : ProviderResult
  | success : List RawRecord → ProviderResult
  deriving Repr, DecidableEq

/-- The search provider (DDGS): a news search and a text search, each a
function of query, max_results and the attempt index (the index models a
provider whose behaviour may differ between attempts). -/
structure Provider where
  news : String → Nat → Nat → ProviderResult
  text : String → Nat → Nat → ProviderResult

/-- Embeds `title = r.get('title', '')`. -/
def titleOf (r : RawRecord) : String := r.title.getD ""

/-- Embeds `url = r.get('href', r.get('url', ''))`. -/
def urlOf (r : RawRecord) : String := r.href.getD (r.url.getD "")

/-- Embeds `snippet = r.get('body', r.get('description', ''))`. -/
def snippetOf (r : RawRecord) : String := r.body.getD (r.description.getD "")

/-- Embeds the truthiness test `if title and url:` — in Python an absent
key yields `''`, which is falsy, so the record is appended exactly when
both extracted strings are non-empty. -/
def keepB (r : RawRecord) : Bool := titleOf r != "" && urlOf r != ""

/-- Embeds the f-string
`f"{i}. **{title}**\n   URL: {url}\n   {snippet}\n"`. -/
def formatEntry (i : Nat) (r : RawRecord) : String :=
  toString i ++ ". **" ++ titleOf r ++ "**\n   URL: " ++ urlOf r ++ "\n   " ++ snippetOf r ++ "\n"

/-- Embeds the formatting loop `for i, r in enumerate(raw_results, 1): ...
if title and url: results.append(...)`. -/
def formatResults (raw : List RawRecord) : List String :=
  (List.enumFrom 1 raw).filterMap fun p =>
    if keepB p.2 then some (formatEntry p.1 p.2) else none

/-- The literal returned on an empty raw result set. -/
def noResultsMsg : String := "No results found for this query."

/-- The literal returned when every raw record is filtered out. -/
def noValidMsg : String := "No valid results found after quality filtering."

/-- The literal returned once every attempt has failed
(`f"Error: Could not complete search after {max_retries} attempts."`). -/
def exhaustedMsg : String := "Error: Could not complete search after 5 attempts."

/-- The literal of the trailing `return` after the `for` loop. -/
def fallbackMsg : String := "Search failed after all retries."

/-- Embeds the body of one successful attempt: the empty-result check, the
formatting loop, the quality-filter check and `"\n".join(results)`. -/
def attemptResult (raw : List RawRecord) : String :=
  if raw.isEmpty then noResultsMsg
  else
    let results := formatResults raw
    if results.isEmpty then noValidMsg
    else String.intercalate "\n" results

/-- Constant `max_retries = 5` of `internet_search`. -/
def max_retries : Nat := 5

/-- Constant `initial_backoff = 1.0` of `internet_search`. -/
def initial_backoff : ℚ := 1

/-- Constant `max_backoff = 60.0` of `internet_search`. -/
def max_backoff : ℚ := 60

/-- Trace of one `internet_search` call: the returned string, the applied
sleeps in order (each is `min(backoff, max_backoff)`), and how many
provider attempts were made. -/
structure SearchTrace where
  result : String
  sleeps : List ℚ
  attemptsMade : Nat
  deriving Repr, DecidableEq

/-- Embeds the loop `for attempt in range(max_retries)` of
`internet_search`; `remaining` is `max_retries - attempt` so the Python
guard `attempt < max_retries - 1` is `remaining > 1`.  On success the
attempt's string is returned; on failure the code sleeps
`min(backoff, max_backoff)` and doubles `backoff` unless this was the
last attempt, in which case `exhaustedMsg` is returned.  The `remaining
= 0` case is the trailing `return` after the loop. -/
def searchFrom (call : Nat → ProviderResult) :
    Nat → ℚ → Nat → SearchTrace
  | _, _, 0 => ⟨fallbackMsg, [], 0⟩
  | attempt, backoff, r + 1 =>
    match call attempt with
    | .success raw => ⟨attemptResult raw, [], 1⟩
    | .failure =>
      if r = 0 then ⟨exhaustedMsg, [], 1⟩
      else
        let rest := searchFrom call (attempt + 1) (backoff * 2) r
        ⟨rest.result, min backoff max_backoff :: rest.sleeps, rest.attemptsMade + 1⟩

/-- Embeds the dispatch `if search_type == "news": ddgs.news(...) else:
ddgs.text(...)` of one attempt. -/
def providerCall (p : Provider) (query : String) (max_results : Nat)
    (search_type : String) (attempt : Nat) : ProviderResult :=
  if search_type = "news" then p.news query max_results attempt
  else p.text query max_results attempt

/-- Embeds `internet_search(query, max_results, search_type)` of
`script.py`: the retry loop started at attempt 0 with backoff 1.0. -/
def internet_search (p : Provider) (query : String) (max_results : Nat)
    (search_type : String) : SearchTrace :=
  searchFrom (fun attempt => providerCall p query max_results search_type attempt)
    0 initial_backoff max_retries

/-- A provider whose text search always yields one filtered-out record
followed by one record with title and href present. -/
def rDrop : RawRecord := ⟨none, none, none, none, none⟩

/-- A record with title `B`, href `L` and body `S`. -/
def rKeep : RawRecord := ⟨some "B", some "L", none, some "S", none⟩

/-- Record with a title but no link field at all. -/
def rTitleOnly : RawRecord := ⟨some "A", none, none, some "S", none⟩

/-- Demonstration provider: text search succeeds at once with
`[rDrop, rKeep]`. -/
def pDemo : Provider :=
  ⟨fun _ _ _ => .failure, fun _ _ _ => .success [rDrop, rKeep]⟩

/-- Provider whose text search succeeds at once with `[rTitleOnly]`. -/
def pTitleOnly : Provider :=
  ⟨fun _ _ _ => .failure, fun _ _ _ => .success [rTitleOnly]⟩

/-- Provider that succeeds at once with an empty raw result set. -/
def pEmpty : Provider :=
  ⟨fun _ _ _ => .success [], fun _ _ _ => .success []⟩

/-- Provider that fails (raises) on every attempt of both search kinds. -/
def pFail : Provider :=
  ⟨fun _ _ _ => .failure, fun _ _ _ => .failure⟩

/-- Formalisation of the claimed numbering (the spec's words, for
comparison with `formatResults`): the surviving records renumbered
1..M, contiguously, in original relative order. -/
def formatResultsSpec (raw : List RawRecord) : List String :=
  (List.enumFrom 1 (raw.filter keepB)).map fun p => formatEntry p.1 p.2

/-- Whitespace test used by `trimStr`. -/
def isWS (c : Char) : Bool := c = ' ' || c = '\n' || c = '\t' || c = '\r'

/-- Structural trim of leading and trailing whitespace (an executable
counterpart of `str.strip()`). -/
def trimStr (s : String) : String :=
  ⟨((s.data.dropWhile isWS).reverse.dropWhile isWS).reverse⟩

/-- Structural `startswith` test. -/
def startsWithStr (pre s : String) : Bool := pre.data.isPrefixOf s.data

/-- Fuel-driven splitter on a non-empty separator: each step consumes at
least one character, so fuel equal to the input length suffices. -/
def splitCharsF (sep : List Char) : Nat → List Char → List (List Char)
  | _, [] => [[]]
  | 0, l => [l]
  | fuel + 1, c :: cs =>
    if sep.isPrefixOf (c :: cs) then
      [] :: splitCharsF sep fuel (List.drop sep.length (c :: cs))
    else
      match splitCharsF sep fuel cs with
      | [] => [[c]]
      | g :: gs => (c :: g) :: gs

/-- Structural counterpart of `str.split(sep)`: splits `s` on every
occurrence of the (non-empty) separator. -/
def splitOnStr (sep s : String) : List String :=
  if sep.data.isEmpty then [s]
  else (splitCharsF sep.data s.data.length s.data).map String.mk

/-- One agent specification, as produced by the loader.  `name`, `title`
and `description` are `none` when absent from the metadata mapping
(the spec: "absent → null/empty, not an error at this stage"). -/
structure AgentSpec where
  name : Option String
  title : Option String
  description : Option String
  enabled : Bool
  system_prompt : String
  deriving Repr, DecidableEq

/-- Failure modes of `parseAgentSpec` (the spec's FormatError). -/
inductive FormatError where
  | missingDelimiter
  | badSplit
  | badMetadata
  deriving Repr, DecidableEq

/-- Modelled from the spec: the metadata block is "a structured key-value
mapping supporting at least string and boolean values"; a non-blank line
that is not a `key: value` pair makes parsing fail (yield `none`). -/
def parseMetaLines : List String → Option (List (String × String))
  | [] => some []
  | line :: rest =>
    if trimStr line = "" then parseMetaLines rest
    else
      match splitOnStr ":" line with
      | key :: v :: vs =>
        match parseMetaLines rest with
        | none => none
        | some kvs =>
          some ((trimStr key, trimStr (String.intercalate ":" (v :: vs))) :: kvs)
      | _ => none

/-- Modelled from the spec: parse the metadata block into a key-value
mapping, line by line. -/
def parseMetadata (block : String) : Option (List (String × String)) :=
  parseMetaLines (splitOnStr "\n" block)

/-- Modelled from the spec, §4.2 step 5: the remainder of the document is
the candidate prompt body; if its first line is exactly the
`# System Prompt` heading, strip that line; trim whitespace. -/
def extractPrompt (body : String) : String :=
  let trimmed := trimStr body
  match splitOnStr "\n" trimmed with
  | first :: rest =>
    if trimStr first = "# System Prompt" then trimStr (String.intercalate "\n" rest)
    else trimmed
  | [] => trimmed

/-- Modelled from the spec: the `enabled` metadata value defaults to true
when absent; the boolean literal `false` disables the spec. -/
def enabledOf (kvs : List (String × String)) : Bool :=
  match List.lookup "enabled" kvs with
  | some v => v != "false"
  | none => true

/-- Modelled from the spec: `parse_agent_spec` is imported from `script`
by `api_server.py` but its definition is not present under `src/`; this
follows the spec, §4.2: the document must begin with the `---` delimiter;
splitting on the delimiter must yield at least three segments (preamble,
metadata block, body), else a FormatError; the metadata block must parse
to a key-value mapping, else a FormatError; `name`, `title`,
`description` are extracted (absent allowed), `enabled` defaults to
true, and the body after the metadata block becomes `system_prompt`
via `extractPrompt`. -/
def parseAgentSpec (doc : String) : Except FormatError AgentSpec :=
  if ¬ startsWithStr "---" doc then .error .missingDelimiter
  else
    let parts := splitOnStr "---" doc
    if parts.length < 3 then .error .badSplit
    else
      match parts with
      | _ :: metaBlock :: rest₁ =>
        match parseMetadata metaBlock with
        | none => .error .badMetadata
        | some kvs =>
          .ok ⟨List.lookup "name" kvs, List.lookup "title" kvs,
            List.lookup "description" kvs, enabledOf kvs,
            extractPrompt (String.intercalate "---" rest₁)⟩
      | _ => .error .badSplit

/-- Result of one directory load: the enabled specs in file order, plus
the diagnostics emitted for files that failed to parse (the spec's
"report which file failed ... as a side effect"). -/
structure LoadOutcome where
  specs : List AgentSpec
  diagnostics : List String
  deriving Repr, DecidableEq

/-- Modelled from the spec: `load_agent_specs` is imported from `script`
by `api_server.py` but its definition is not present under `src/`; this
follows the spec, §4.2: the directory is a list of (filename, contents)
pairs in enumeration order; each file is parsed; a parse failure is
recorded as a diagnostic and skipped; only specs with `enabled = true`
are included, in order. -/
def loadAgentSpecs : List (String × String) → LoadOutcome
  | [] => ⟨[], []⟩
  | (fname, doc) :: rest =>
    let out := loadAgentSpecs rest
    match parseAgentSpec doc with
    | .error _ => ⟨out.specs, s!"Failed to parse {fname}" :: out.diagnostics⟩
    | .ok spec =>
      if spec.enabled then ⟨spec :: out.specs, out.diagnostics⟩
      else ⟨out.specs, out.diagnostics⟩

/-- Outcome of the chat endpoint's agent selection. -/
inductive ChatLookup where
  | notFound (agent_name : String)
  | selected (spec : AgentSpec)
  deriving Repr, DecidableEq

/-- Embeds the lookup of `api_server.py`'s `chat` endpoint:
`spec = next((s for s in specs if s['name'] == agent_name), None)`,
answering 404 `Agent ... not found` when `None` and constructing the
agent from the first match otherwise. -/
def chatSelect (specs : List AgentSpec) (agent_name : String) : ChatLookup :=
  match specs.find? (fun s => s.name == some agent_name) with
  | none => .notFound agent_name
  | some s => .selected s

/-- Well-formed enabled document used as a concrete directory entry. -/
def docEnabled : String := "---\nname: a\n---\nP"

/-- Well-formed disabled document. -/
def docDisabled : String := "---\nname: b\nenabled: false\n---\nQ"

/-- Malformed document (no leading delimiter). -/
def docBad : String := "just text, no delimiter"

/-! ### Helper lemmas about the search embedding -/

theorem filterMapIf_eq_filter_map {α β : Type} (p : α → Bool) (f : α → β) (l : List α) :
    (l.filterMap fun x => if p x then some (f x) else none) = (l.filter p).map f := by
  induction l with
  | nil => rfl
  | cons x t ih => by_cases h : p x <;> simp [List.filterMap_cons, List.filter_cons, h, ih]

theorem formatResults_eq (raw : List RawRecord) :
    formatResults raw =
      ((List.enumFrom 1 raw).filter fun pr => keepB pr.2).map
        fun pr => formatEntry pr.1 pr.2 :=
  filterMapIf_eq_filter_map _ _ _

theorem enumFrom_filter_keep_length (n : Nat) (raw : List RawRecord) :
    ((List.enumFrom n raw).filter fun pr => keepB pr.2).length =
      (raw.filter keepB).length := by
  induction raw generalizing n with
  | nil => rfl
  | cons a t ih => by_cases h : keepB a <;> simp [List.enumFrom, List.filter_cons, h, ih]

theorem formatResults_length (raw : List RawRecord) :
    (formatResults raw).length = (raw.filter keepB).length := by
  rw [formatResults_eq, List.length_map]
  exact enumFrom_filter_keep_length 1 raw

theorem searchFrom_success (c : Nat → ProviderResult) (att : Nat) (b : ℚ) (r : Nat)
    (raw : List RawRecord) (hc : c att = .success raw) :
    searchFrom c att b (r + 1) = ⟨attemptResult raw, [], 1⟩ := by
  simp [searchFrom, hc]

theorem searchFrom_fail_one (c : Nat → ProviderResult) (att : Nat) (b : ℚ)
    (hc : c att = .failure) :
    searchFrom c att b 1 = ⟨exhaustedMsg, [], 1⟩ := by
  simp [searchFrom, hc]

theorem searchFrom_fail_step (c : Nat → ProviderResult) (att : Nat) (b : ℚ) (r : Nat)
    (hc : c att = .failure) (hr : r ≠ 0) :
    searchFrom c att b (r + 1) =
      ⟨(searchFrom c (att + 1) (b * 2) r).result,
        min b max_backoff :: (searchFrom c (att + 1) (b * 2) r).sleeps,
        (searchFrom c (att + 1) (b * 2) r).attemptsMade + 1⟩ := by
  simp [searchFrom, hc, hr]

theorem searchFrom_result_forms (c : Nat → ProviderResult) :
    ∀ (r att : Nat) (b : ℚ), r ≠ 0 →
      (∃ raw, (searchFrom c att b r).result = attemptResult raw) ∨
        (searchFrom c att b r).result = exhaustedMsg := by
  intro r
  induction r with
  | zero => intro att b h; exact absurd rfl h
  | succ n ih =>
    intro att b _
    cases hc : c att with
    | success raw =>
      left
      exact ⟨raw, by rw [searchFrom_success c att b n raw hc]⟩
    | failure =>
      by_cases hn : n = 0
      · subst hn
        right
        rw [searchFrom_fail_one c att b hc]
      · rw [searchFrom_fail_step c att b n hc hn]
        exact ih (att + 1) (b * 2) hn

theorem attemptResult_of_empty (raw : List RawRecord) (h : raw.isEmpty = true) :
    attemptResult raw = noResultsMsg := by
  simp [attemptResult, h]

theorem attemptResult_of_filtered (raw : List RawRecord) (h1 : raw.isEmpty = false)
    (h2 : (formatResults raw).isEmpty = true) :
    attemptResult raw = noValidMsg := by
  simp [attemptResult, h1, h2]

theorem attemptResult_of_survivors (raw : List RawRecord) (h1 : raw.isEmpty = false)
    (h2 : (formatResults raw).isEmpty = false) :
    attemptResult raw = String.intercalate "\n" (formatResults raw) := by
  simp [attemptResult, h1, h2]

theorem attemptResult_forms (raw : List RawRecord) :
    attemptResult raw = noResultsMsg ∨ attemptResult raw = noValidMsg ∨
      attemptResult raw = String.intercalate "\n" (formatResults raw) := by
  by_cases h1 : raw.isEmpty <;> by_cases h2 : (formatResults raw).isEmpty <;>
    simp [attemptResult, h1, h2]

theorem internet_search_first_success (p : Provider) (q : String) (mr : Nat)
    (st : String) (raw : List RawRecord)
    (h : providerCall p q mr st 0 = .success raw) :
    internet_search p q mr st = ⟨attemptResult raw, [], 1⟩ :=
  searchFrom_success (fun a => providerCall p q mr st a) 0 1 4 raw h

theorem newline_mem_formatEntry (i : Nat) (r : RawRecord) :
    '\n' ∈ (formatEntry i r).data := by
  unfold formatEntry
  rw [String.data_append]
  exact List.mem_append_right _ (by decide)

theorem newline_mem_go (s : String) :
    ∀ (l : List String) (acc : String), '\n' ∈ acc.data →
      '\n' ∈ (String.intercalate.go acc s l).data := by
  intro l
  induction l with
  | nil =>
    intro acc h
    simpa [String.intercalate.go] using h
  | cons a t ih =>
    intro acc h
    have h2 : '\n' ∈ ((acc ++ s) ++ a).data := by
      rw [String.data_append, String.data_append]
      exact List.mem_append_left _ (List.mem_append_left _ h)
    simpa [String.intercalate.go] using ih _ h2

theorem newline_mem_intercalate (a : String) (l : List String)
    (h : '\n' ∈ a.data) : '\n' ∈ (String.intercalate "\n" (a :: l)).data :=
  newline_mem_go "\n" l a h

theorem mem_formatResults_shape (raw : List RawRecord) (x : String)
    (h : x ∈ formatResults raw) : ∃ i r, x = formatEntry i r := by
  unfold formatResults at h
  rw [List.mem_filterMap] at h
  obtain ⟨p, _, hp⟩ := h
  by_cases hk : keepB p.2
  · rw [if_pos hk] at hp
    exact ⟨p.1, p.2, (Option.some.inj hp).symm⟩
  · rw [if_neg hk] at hp
    cases hp

theorem attemptResult_ne_fallback (raw : List RawRecord) :
    attemptResult raw ≠ fallbackMsg := by
  rcases attemptResult_forms raw with h | h | h
  · rw [h]; decide
  · rw [h]; decide
  · rw [h]
    cases hl : formatResults raw with
    | nil => decide
    | cons a t =>
      intro heq
      obtain ⟨i, r, ha⟩ := mem_formatResults_shape raw a (hl ▸ List.mem_cons_self a t)
      have hn : '\n' ∈ (String.intercalate "\n" (a :: t)).data :=
        newline_mem_intercalate a t (by rw [ha]; exact newline_mem_formatEntry i r)
      rw [heq] at hn
      exact absurd hn (by decide)

/-! ### Claims about the search tool -/

/-- Claim C1: for every query, max_results, search_type and for every
behaviour of the search provider across attempts (success, empty results
or a raised error on any subset of attempts), `internet_search` resolves
to a returned string — the formatted block, one of the two no-result
sentinels, or the retries-exhausted error string — and never propagates
an exception (every provider failure is consumed by the retry loop). -/
theorem internet_search_always_returns_string (p : Provider) (q : String)
    (mr : Nat) (st : String) :
    (internet_search p q mr st).result = noResultsMsg ∨
    (internet_search p q mr st).result = noValidMsg ∨
    (∃ raw, (internet_search p q mr st).result =
      String.intercalate "\n" (formatResults raw)) ∨
    (internet_search p q mr st).result = exhaustedMsg := by
  have h := searchFrom_result_forms (fun a => providerCall p q mr st a) 5 0 1
    (by norm_num)
  rcases h with ⟨raw, hraw⟩ | hex
  · have hr : (internet_search p q mr st).result = attemptResult raw := hraw
    rcases attemptResult_forms raw with h | h | h
    · exact Or.inl (hr.trans h)
    · exact Or.inr (Or.inl (hr.trans h))
    · exact Or.inr (Or.inr (Or.inl ⟨raw, hr.trans h⟩))
  · exact Or.inr (Or.inr (Or.inr hex))

/-- Claim C1 sanity witness: the always-failing provider still yields a
returned string. -/
theorem internet_search_always_returns_string_witness :
    (internet_search pFail "q" 5 "general").result = noResultsMsg ∨
    (internet_search pFail "q" 5 "general").result = noValidMsg ∨
    (∃ raw, (internet_search pFail "q" 5 "general").result =
      String.intercalate "\n" (formatResults raw)) ∨
    (internet_search pFail "q" 5 "general").result = exhaustedMsg :=
  internet_search_always_returns_string pFail "q" 5 "general"

/-- Claim C9: every execution of `internet_search` returns from inside
the retry loop, so the trailing statement `return "Search failed after
all retries."` after the loop is dead code: no call ever returns that
string. -/
theorem internet_search_fallback_unreachable (p : Provider) (q : String)
    (mr : Nat) (st : String) :
    (internet_search p q mr st).result ≠ fallbackMsg := by
  have h := searchFrom_result_forms (fun a => providerCall p q mr st a) 5 0 1
    (by norm_num)
  rcases h with ⟨raw, hraw⟩ | hex
  · intro heq
    exact attemptResult_ne_fallback raw (hraw.symm.trans heq)
  · intro heq
    exact absurd (hex.symm.trans heq) (by decide)

/-- Claim C9 sanity witness at a concrete provider. -/
theorem internet_search_fallback_unreachable_witness :
    (internet_search pFail "q" 5 "general").result ≠ fallbackMsg :=
  internet_search_fallback_unreachable pFail "q" 5 "general"

/-- Claim C2 counterexample: with two raw records of which the first is
dropped by the title/link filter, the surviving record is displayed with
rank 2 — the rank is its position in the RAW list, not a contiguous
1..M renumbering of the survivors, so the claimed "ranks are 1..M with no
gaps even when some raw records are dropped" is false on the code. -/
theorem internet_search_numbering_cex :
    (internet_search pDemo "q" 5 "general").result =
      "2. **B**\n   URL: L\n   S\n" ∧
    String.intercalate "\n" (formatResultsSpec [rDrop, rKeep]) =
      "1. **B**\n   URL: L\n   S\n" ∧
    (internet_search pDemo "q" 5 "general").result ≠
      String.intercalate "\n" (formatResultsSpec [rDrop, rKeep]) := by
  refine ⟨rfl, rfl, ?_⟩
  decide

/-- Claim C2 (amended): when the provider succeeds at the first attempt
with N raw records of which M pass the title/link filter (M ≥ 1), the
returned block contains exactly M entries, in the survivors' original
relative order, but each entry is displayed with its 1-based rank in the
RAW record list (so dropped records leave gaps in the numbering). -/
theorem internet_search_block_numbering (p : Provider) (q : String) (mr : Nat)
    (raw : List RawRecord) (h : p.text q mr 0 = .success raw)
    (hne : raw.isEmpty = false) (hsur : (formatResults raw).isEmpty = false) :
    (internet_search p q mr "general").result =
      String.intercalate "\n"
        (((List.enumFrom 1 raw).filter fun pr => keepB pr.2).map
          fun pr => formatEntry pr.1 pr.2) ∧
    (formatResults raw).length = (raw.filter keepB).length := by
  refine ⟨?_, formatResults_length raw⟩
  have hc : providerCall p q mr "general" 0 = .success raw := by
    simpa [providerCall] using h
  rw [internet_search_first_success p q mr "general" raw hc]
  show attemptResult raw = _
  rw [attemptResult_of_survivors raw hne hsur, formatResults_eq]

/-- Claim C2 (amended) witness: at the concrete two-record provider, the
block is the single raw-rank-2 entry and M = 1. -/
theorem internet_search_block_numbering_witness :
    (internet_search pDemo "q" 5 "general").result =
      String.intercalate "\n"
        (((List.enumFrom 1 [rDrop, rKeep]).filter fun pr => keepB pr.2).map
          fun pr => formatEntry pr.1 pr.2) ∧
    (formatResults [rDrop, rKeep]).length = ([rDrop, rKeep].filter keepB).length :=
  internet_search_block_numbering pDemo "q" 5 [rDrop, rKeep] rfl rfl rfl

/-- Claim C3 counterexample: a record whose title is present but whose
link is absent is dropped by the code (`if title and url:` requires
BOTH), contradicting the claim that a record with at least one of
title/link present is kept: with `[rTitleOnly]` as the raw results the
call returns the "no valid results" sentinel and renders nothing. -/
theorem internet_search_drop_cex :
    titleOf rTitleOnly ≠ "" ∧ keepB rTitleOnly = false ∧
    formatResults [rTitleOnly] = [] ∧
    (internet_search pTitleOnly "q" 5 "general").result = noValidMsg := by
  refine ⟨by decide, rfl, rfl, rfl⟩

/-- Claim C3 (amended): during normalization a raw record is kept and
rendered exactly when BOTH its extracted title and its extracted link are
non-empty; a record missing (or empty in) either field is dropped. -/
theorem internet_search_keep_criterion (raw : List RawRecord)
    (pr : Nat × RawRecord) (hpr : pr ∈ List.enumFrom 1 raw) :
    (keepB pr.2 = true ↔ (titleOf pr.2 ≠ "" ∧ urlOf pr.2 ≠ "")) ∧
    (keepB pr.2 = true → formatEntry pr.1 pr.2 ∈ formatResults raw) ∧
    (∀ s ∈ formatResults raw, ∃ p₂, p₂ ∈ List.enumFrom 1 raw ∧
      keepB p₂.2 = true ∧ s = formatEntry p₂.1 p₂.2) ∧
    (formatResults raw).length = (raw.filter keepB).length := by
  refine ⟨?_, ?_, ?_, formatResults_length raw⟩
  · simp [keepB]
  · intro hk
    unfold formatResults
    rw [List.mem_filterMap]
    exact ⟨pr, hpr, by rw [if_pos hk]⟩
  · intro s hs
    unfold formatResults at hs
    rw [List.mem_filterMap] at hs
    obtain ⟨p₂, hp₂, hif⟩ := hs
    by_cases hk : keepB p₂.2
    · rw [if_pos hk] at hif
      exact ⟨p₂, hp₂, hk, (Option.some.inj hif).symm⟩
    · rw [if_neg hk] at hif
      cases hif

/-- Claim C3 (amended) witness at the two-record list: the surviving
record passes both field tests and is rendered. -/
theorem internet_search_keep_criterion_witness :
    ((keepB ((2, rKeep) : Nat × RawRecord).2 = true ↔
      (titleOf ((2, rKeep) : Nat × RawRecord).2 ≠ "" ∧
        urlOf ((2, rKeep) : Nat × RawRecord).2 ≠ "")) ∧
    (keepB ((2, rKeep) : Nat × RawRecord).2 = true →
      formatEntry ((2, rKeep) : Nat × RawRecord).1 ((2, rKeep) : Nat × RawRecord).2 ∈
        formatResults [rDrop, rKeep]) ∧
    (∀ s ∈ formatResults [rDrop, rKeep], ∃ p₂, p₂ ∈ List.enumFrom 1 [rDrop, rKeep] ∧
      keepB p₂.2 = true ∧ s = formatEntry p₂.1 p₂.2) ∧
    (formatResults [rDrop, rKeep]).length = ([rDrop, rKeep].filter keepB).length) :=
  internet_search_keep_criterion [rDrop, rKeep] (2, rKeep) (by decide)

/-- Claim C4: a first-attempt success with zero raw records returns the
static "no results" sentinel; a success whose records are all dropped by
the title/link filter returns the distinct "no valid results" sentinel;
the two sentinels differ, and both cases return normally. -/
theorem internet_search_sentinels (p : Provider) (q : String) (mr : Nat)
    (st : String) (raw : List RawRecord)
    (h : providerCall p q mr st 0 = .success raw) :
    (raw = [] → (internet_search p q mr st).result = noResultsMsg) ∧
    (raw ≠ [] → (formatResults raw).isEmpty = true →
      (internet_search p q mr st).result = noValidMsg) ∧
    noResultsMsg ≠ noValidMsg := by
  rw [internet_search_first_success p q mr st raw h]
  refine ⟨?_, ?_, by decide⟩
  · intro he
    subst he
    rfl
  · intro hne h2
    show attemptResult raw = _
    have h1 : raw.isEmpty = false := by simp [List.isEmpty_eq_false, hne]
    exact attemptResult_of_filtered raw h1 h2

/-- Claim C4 witness: the empty-result provider hits the "no results"
sentinel, and the sentinels are distinct. -/
theorem internet_search_sentinels_witness :
    (([] : List RawRecord) = [] →
      (internet_search pEmpty "q" 5 "general").result = noResultsMsg) ∧
    (([] : List RawRecord) ≠ [] → (formatResults []).isEmpty = true →
      (internet_search pEmpty "q" 5 "general").result = noValidMsg) ∧
    noResultsMsg ≠ noValidMsg :=
  internet_search_sentinels pEmpty "q" 5 "general" [] rfl

theorem searchFrom_all_fail (c : Nat → ProviderResult)
    (h : ∀ i, i < 5 → c i = .failure) :
    searchFrom c 0 1 5 = ⟨exhaustedMsg, [1, 2, 4, 8], 5⟩ := by
  have h0 := h 0 (by norm_num)
  have h1 := h 1 (by norm_num)
  have h2 := h 2 (by norm_num)
  have h3 := h 3 (by norm_num)
  have h4 := h 4 (by norm_num)
  have e4 : searchFrom c 4 16 1 = ⟨exhaustedMsg, [], 1⟩ :=
    searchFrom_fail_one c 4 16 h4
  have e3 : searchFrom c 3 8 2 = ⟨exhaustedMsg, [8], 2⟩ := by
    refine (searchFrom_fail_step c 3 8 1 h3 one_ne_zero).trans ?_
    rw [show (8 : ℚ) * 2 = 16 by norm_num, e4]
    norm_num [max_backoff, min_def]
  have e2 : searchFrom c 2 4 3 = ⟨exhaustedMsg, [4, 8], 3⟩ := by
    refine (searchFrom_fail_step c 2 4 2 h2 two_ne_zero).trans ?_
    rw [show (4 : ℚ) * 2 = 8 by norm_num, e3]
    norm_num [max_backoff, min_def]
  have e1 : searchFrom c 1 2 4 = ⟨exhaustedMsg, [2, 4, 8], 4⟩ := by
    refine (searchFrom_fail_step c 1 2 3 h1 three_ne_zero).trans ?_
    rw [show (2 : ℚ) * 2 = 4 by norm_num, e2]
    norm_num [max_backoff, min_def]
  refine (searchFrom_fail_step c 0 1 4 h0 four_ne_zero).trans ?_
  rw [show (1 : ℚ) * 2 = 2 by norm_num, e1]
  norm_num [max_backoff, min_def]

/-- Claim C5: if the provider raises on every attempt, `internet_search`
makes exactly 5 attempts, returns the error string naming attempt count
5, waits `min(backoff, 60)` before each of the 4 retries with backoff
1, 2, 4, 8, and the total wait is 15 time-units — at least
1+2+4+8 = 15 and at most 5×60 = 300. -/
theorem internet_search_retry_schedule (p : Provider) (q : String) (mr : Nat)
    (st : String) (h : ∀ i, i < 5 → providerCall p q mr st i = .failure) :
    (internet_search p q mr st).result = exhaustedMsg ∧
    (internet_search p q mr st).attemptsMade = 5 ∧
    (internet_search p q mr st).sleeps = [1, 2, 4, 8] ∧
    (internet_search p q mr st).sleeps.sum = 15 ∧
    (15 : ℚ) ≤ (internet_search p q mr st).sleeps.sum ∧
    (internet_search p q mr st).sleeps.sum ≤ 300 := by
  have e : internet_search p q mr st = ⟨exhaustedMsg, [1, 2, 4, 8], 5⟩ :=
    searchFrom_all_fail (fun a => providerCall p q mr st a) h
  rw [e]
  norm_num

/-- Claim C5 witness: the always-failing provider realises the schedule. -/
theorem internet_search_retry_schedule_witness :
    (internet_search pFail "q" 5 "general").result = exhaustedMsg ∧
    (internet_search pFail "q" 5 "general").attemptsMade = 5 ∧
    (internet_search pFail "q" 5 "general").sleeps = [1, 2, 4, 8] ∧
    (internet_search pFail "q" 5 "general").sleeps.sum = 15 ∧
    (15 : ℚ) ≤ (internet_search pFail "q" 5 "general").sleeps.sum ∧
    (internet_search pFail "q" 5 "general").sleeps.sum ≤ 300 :=
  internet_search_retry_schedule pFail "q" 5 "general" (fun _ _ => rfl)

/-- Claim C10: any `search_type` other than the exact string `news` —
including values outside the documented enumeration — is silently routed
to the general text search, never rejected. -/
theorem internet_search_unknown_type (p : Provider) (q : String) (mr : Nat)
    (st : String) (h : st ≠ "news") :
    internet_search p q mr st = internet_search p q mr "general" ∧
    ∀ a, providerCall p q mr st a = p.text q mr a := by
  have hp : ∀ a, providerCall p q mr st a = p.text q mr a := by
    intro a
    unfold providerCall
    rw [if_neg h]
  refine ⟨?_, hp⟩
  unfold internet_search
  congr 1
  funext a
  rw [hp a]
  unfold providerCall
  rw [if_neg (by decide : ("general" : String) ≠ "news")]

/-- Claim C10 witness: an undocumented mode string behaves as general. -/
theorem internet_search_unknown_type_witness :
    internet_search pDemo "q" 5 "weird" = internet_search pDemo "q" 5 "general" ∧
    ∀ a, providerCall pDemo "q" 5 "weird" a = pDemo.text "q" 5 a :=
  internet_search_unknown_type pDemo "q" 5 "weird" (by decide)

/-! ### Claims about the agent loader and the chat lookup -/

/-- Claim C6: loading a directory holding one well-formed enabled spec,
one well-formed disabled spec and one malformed file yields exactly the
one enabled spec; the disabled spec is excluded and the malformed file
only contributes a diagnostic — it aborts nothing and propagates no
error. -/
theorem loadAgentSpecs_skip_and_filter (f₁ f₂ f₃ d₁ d₂ d₃ : String)
    (s₁ s₂ : AgentSpec) (e : FormatError)
    (h₁ : parseAgentSpec d₁ = .ok s₁) (he₁ : s₁.enabled = true)
    (h₂ : parseAgentSpec d₂ = .ok s₂) (he₂ : s₂.enabled = false)
    (h₃ : parseAgentSpec d₃ = .error e) :
    loadAgentSpecs [(f₁, d₁), (f₂, d₂), (f₃, d₃)] =
      ⟨[s₁], [s!"Failed to parse {f₃}"]⟩ := by
  simp [loadAgentSpecs, h₁, he₁, h₂, he₂, h₃]

/-- Claim C6 witness: a concrete three-file directory. -/
theorem loadAgentSpecs_skip_and_filter_witness :
    loadAgentSpecs [("a.md", docEnabled), ("b.md", docDisabled), ("c.md", docBad)] =
      ⟨[⟨some "a", none, none, true, "P"⟩], [s!"Failed to parse c.md"]⟩ :=
  loadAgentSpecs_skip_and_filter "a.md" "b.md" "c.md" docEnabled docDisabled docBad
    ⟨some "a", none, none, true, "P"⟩ ⟨some "b", none, none, false, "Q"⟩
    .missingDelimiter rfl rfl rfl rfl rfl

/-- Claim C7: a document that does not begin with the `---` delimiter, or
whose split on the delimiter yields fewer than three segments, makes
`parseAgentSpec` fail with a FormatError — it never returns a partial
AgentSpec. -/
theorem parseAgentSpec_format_error (doc : String)
    (h : startsWithStr "---" doc = false ∨ (splitOnStr "---" doc).length < 3) :
    ∃ e, parseAgentSpec doc = .error e := by
  unfold parseAgentSpec
  rcases h with h | h
  · exact ⟨.missingDelimiter, by simp [h]⟩
  · by_cases hs : startsWithStr "---" doc
    · exact ⟨.badSplit, by simp [hs, h]⟩
    · exact ⟨.missingDelimiter, by simp [hs]⟩

/-- Claim C7 witness: a delimiter-free document fails with a
FormatError. -/
theorem parseAgentSpec_format_error_witness :
    ∃ e, parseAgentSpec "just text, no delimiter" = .error e :=
  parseAgentSpec_format_error "just text, no delimiter" (Or.inl rfl)

theorem find_first_characterisation {α : Type} (p : α → Bool) :
    ∀ (l : List α) (a : α), l.find? p = some a →
      p a = true ∧ ∃ l₁ l₂, l = l₁ ++ a :: l₂ ∧ ∀ x ∈ l₁, p x = false := by
  intro l
  induction l with
  | nil => intro a h; cases h
  | cons b t ih =>
    intro a h
    by_cases hb : p b
    · rw [List.find?_cons_of_pos t hb] at h
      obtain rfl := Option.some.inj h
      exact ⟨hb, [], t, rfl, by intro x hx; cases hx⟩
    · rw [List.find?_cons_of_neg t hb] at h
      obtain ⟨hpa, l₁, l₂, hsplit, hall⟩ := ih a h
      refine ⟨hpa, b :: l₁, l₂, by simp [hsplit], ?_⟩
      intro x hx
      rcases List.mem_cons.mp hx with rfl | hx
      · simpa using hb
      · exact hall x hx

/-- Claim C8: if no loaded spec's name equals the requested agent name,
the chat endpoint reports a "not found" lookup failure without selecting
any spec; when matches exist, the first matching spec in sequence order
is selected. -/
theorem chat_lookup_first_match (specs : List AgentSpec) (n : String) :
    (chatSelect specs n = ChatLookup.notFound n ↔ ∀ s ∈ specs, s.name ≠ some n) ∧
    (∀ s, chatSelect specs n = ChatLookup.selected s →
      s.name = some n ∧ ∃ pre post, specs = pre ++ s :: post ∧
        ∀ t ∈ pre, t.name ≠ some n) := by
  constructor
  · unfold chatSelect
    cases hf : specs.find? (fun s => s.name == some n) with
    | none =>
      constructor
      · intro _ s hs
        have hns := List.find?_eq_none.mp hf s hs
        simpa using hns
      · intro _
        rfl
    | some s =>
      constructor
      · intro hcon
        cases hcon
      · intro hall
        have hp : s.name = some n := by simpa using List.find?_some hf
        exact absurd hp (hall s (List.mem_of_find?_eq_some hf))
  · intro s hsel
    unfold chatSelect at hsel
    cases hf : specs.find? (fun t => t.name == some n) with
    | none =>
      rw [hf] at hsel
      cases hsel
    | some u =>
      rw [hf] at hsel
      have hu : u = s := by cases hsel; rfl
      subst hu
      obtain ⟨hp, l₁, l₂, hsplit, hall⟩ := find_first_characterisation _ specs u hf
      refine ⟨by simpa using hp, l₁, l₂, hsplit, ?_⟩
      intro t ht
      simpa using hall t ht

/-- Claim C8 witness: a concrete roster where the requested name is
absent, and one where two specs share the name and the first wins. -/
theorem chat_lookup_first_match_witness :
    (chatSelect [⟨some "a", none, none, true, "P"⟩] "zzz" =
        ChatLookup.notFound "zzz" ↔
      ∀ s ∈ [(⟨some "a", none, none, true, "P"⟩ : AgentSpec)],
        s.name ≠ some "zzz") ∧
    (∀ s, chatSelect [⟨some "a", none, none, true, "P"⟩] "zzz" =
        ChatLookup.selected s →
      s.name = some "zzz" ∧ ∃ pre post,
        [(⟨some "a", none, none, true, "P"⟩ : AgentSpec)] = pre ++ s :: post ∧
          ∀ t ∈ pre, t.name ≠ some "zzz") :=
  chat_lookup_first_match [⟨some "a", none, none, true, "P"⟩] "zzz"
